import Mathlib

/-!
Verification development for the indiamart-lms-sdk repository.

Shallow embedding of the core policy layer: the file-backed rate limiter
(`rate-limiter.js`), the in-process compliance manager (`api-compliance.js`),
the LRU cache (`cache-manager.js`), the date-range validator
(`date-compliance.js`), the error handler (`error-handler.js`), the client
retry loop (`indiamart-client.js` / `getLeads`) and the SDK orchestrator
(`sdk.js` / `getLeadsForDateRange`).

Modelling conventions:
- instants and durations are `Int` milliseconds since the epoch (JS `Date`
  values are injected as an explicit `now` parameter);
- JS `Math.floor(a / b)` on integers is `Int.fdiv`, `Math.ceil(a / b)` is
  the negated floor of the negation;
- the rate limiter's JSON file is the explicit state threaded through
  `canMakeCall` / `recordCall`; a write to the file is modelled by the
  state returned (`canMakeCall` only writes on the hourly-limit branch,
  exactly as the source only calls `saveRateLimitData` there);
- JS `Map` iteration order is insertion order, so the cache is a list of
  key/entry pairs kept in insertion order;
- rates computed with JS floating point are modelled over `Rat`; the
  quantities involved are ratios of naturals so no NaN can arise, which is
  where the source's `isNaN` guards collapse to the identity.
-/

set_option autoImplicit false

/-- JS `Math.floor(a / b)` for integer `a`, positive integer `b`. -/
def jsFloorDiv (a b : Int) : Int := Int.fdiv a b

/-- JS `Math.ceil(a / b)` for integer `a`, positive integer `b`. -/
def jsCeilDiv (a b : Int) : Int := -(Int.fdiv (-a) b)

/-- JS `Math.round` (round half toward positive infinity). -/
def jsRound (q : Rat) : Int := Int.floor (q + 1/2)

/-- Char-list test: does `ts` start with `ps`? Support for `strIncludes`. -/
def charsStartWith : List Char → List Char → Bool
  | _, [] => true
  | [], _ :: _ => false
  | t :: ts, p :: ps => t == p && charsStartWith ts ps

/-- Char-list substring test. Support for `strIncludes`. -/
def charsContain : List Char → List Char → Bool
  | [], ps => charsStartWith [] ps
  | t :: ts, ps => charsStartWith (t :: ts) ps || charsContain ts ps

/-- JS `String.prototype.includes`. -/
def strIncludes (s pat : String) : Bool := charsContain s.toList pat.toList

namespace RateLimiter

/-- The contents of the rate limiter's `rate-limits.json` file
(`loadRateLimitData` / `saveRateLimitData` in `rate-limiter.js`):
a list of call timestamps in push order and the optional block expiry.
The unused `lastReset` bookkeeping field is omitted. -/
structure RateLimitData where
  calls : List Int
  blockedUntil : Option Int
  deriving Repr, DecidableEq

/-- Result object returned by `RateLimiter.canMakeCall`. -/
structure CanCallResult where
  allowed : Bool
  reason : String
  retryAfter : Int
  message : String
  deriving Repr, DecidableEq

/-- `this.limits.callsPerMinute` in `rate-limiter.js`. -/
def callsPerMinute : Nat := 5

/-- `this.limits.callsPerHour` in `rate-limiter.js`. -/
def callsPerHour : Nat := 20

/-- `this.limits.blockDurationMinutes` in `rate-limiter.js`. -/
def blockDurationMinutes : Int := 15

/-- `RateLimiter.canMakeCall` from `rate-limiter.js`, lines 115-177.
Returns the result object together with the file contents after the call:
the source saves the file only on the hourly-limit branch, so every other
branch returns the loaded data unchanged. -/
def canMakeCall (now : Int) (data : RateLimitData) : CanCallResult × RateLimitData :=
  -- blocked check: inside the branch the local copy clears the block and
  -- empties the call history once `now` has passed `blockedUntil`
  let data1 : RateLimitData :=
    match data.blockedUntil with
    | some blockUntil =>
        if now < blockUntil then data
        else { blockedUntil := none, calls := [] }
    | none => data
  match data.blockedUntil with
  | some blockUntil =>
      if now < blockUntil then
        let remainingMinutes := jsCeilDiv (blockUntil - now) (1000 * 60)
        ({ allowed := false
           reason := "RATE_LIMIT_BLOCKED"
           retryAfter := remainingMinutes * 60 * 1000
           message := "API key is blocked for " ++ toString remainingMinutes ++
             " more minutes" }, data)
      else canMakeCallAfterBlock now data data1
  | none => canMakeCallAfterBlock now data data1
where
  /-- The tail of `canMakeCall` after the blocked check: pruning, the hourly
  limit and the minute limit, computed over the local (possibly cleared)
  `data`; `orig` is the loaded file, which only the hourly-limit branch
  overwrites (`saveRateLimitData` is called nowhere else). -/
  canMakeCallAfterBlock (now : Int) (orig data : RateLimitData) :
      CanCallResult × RateLimitData :=
    let oneHourAgo := now - 60 * 60 * 1000
    let calls := data.calls.filter (fun callTime => callTime > oneHourAgo)
    if calls.length ≥ callsPerHour then
      let blockUntil := now + blockDurationMinutes * 60 * 1000
      ({ allowed := false
         reason := "HOURLY_LIMIT_EXCEEDED"
         retryAfter := blockDurationMinutes * 60 * 1000
         message := "Hourly limit exceeded. Blocked for 15 minutes" },
       { calls := calls, blockedUntil := some blockUntil })
    else
      let oneMinuteAgo := now - 60 * 1000
      let recentCalls := calls.filter (fun callTime => callTime > oneMinuteAgo)
      if recentCalls.length ≥ callsPerMinute then
        let waitTime := 60 - jsFloorDiv (now - recentCalls.headD 0) 1000
        ({ allowed := false
           reason := "MINUTE_LIMIT_EXCEEDED"
           retryAfter := waitTime * 1000
           message := "Minute limit exceeded. Wait " ++ toString waitTime ++
             " seconds" }, orig)
      else
        ({ allowed := true
           reason := "OK"
           retryAfter := 0
           message := "API call allowed" }, orig)

/-- `RateLimiter.recordCall` from `rate-limiter.js`, lines 183-198:
push the current timestamp, then pop it again when `success` is false. -/
def recordCall (now : Int) (success : Bool) (data : RateLimitData) : RateLimitData :=
  let calls := data.calls ++ [now]
  let calls := if success then calls else calls.dropLast
  { data with calls := calls }

end RateLimiter

namespace ApiCompliance

/-- `this.minIntervalMs` in `api-compliance.js` (5 minutes). -/
def minIntervalMs : Int := 5 * 60 * 1000

/-- `this.maxCallsPerMinute` in `api-compliance.js`. -/
def maxCallsPerMinute : Nat := 5

/-- Mutable fields of `IndiaMartComplianceManager` used by `validateCall`
and its `recordCall` (`api-compliance.js`). -/
structure ComplianceState where
  callHistory : List Int
  lastCallTime : Option Int
  isBlocked : Bool
  blockedUntil : Option Int
  deriving Repr, DecidableEq

/-- One entry of the `violations` array built by `validateCall`. The
human-readable `message` string is display-only and omitted. -/
structure Violation where
  vtype : String
  retryAfter : Int
  deriving Repr, DecidableEq

/-- Result object of `IndiaMartComplianceManager.validateCall`. -/
structure ValidateCallResult where
  isValid : Bool
  violations : List Violation
  deriving Repr, DecidableEq

/-- `IndiaMartComplianceManager.validateCall` from `api-compliance.js`,
lines 45-107. `dateValidationOk` stands for the result of the embedded
`this.validateDateRange(startTime, endTime)` call on the raw string
arguments (string parsing is outside this embedding); the state returned
reflects the block-expiry mutation in the first branch. JS compares
`Date.now() < this.blockedUntil` where a null bound coerces to 0, hence
the `getD 0`. -/
def validateCall (now : Int) (dateValidationOk : Bool) (st : ComplianceState) :
    ValidateCallResult × ComplianceState :=
  let blockedViolations : List Violation :=
    if st.isBlocked then
      if now < st.blockedUntil.getD 0 then
        [{ vtype := "API_KEY_BLOCKED", retryAfter := st.blockedUntil.getD 0 - now }]
      else []
    else []
  let st1 : ComplianceState :=
    if st.isBlocked ∧ ¬ (now < st.blockedUntil.getD 0) then
      { st with isBlocked := false, blockedUntil := none }
    else st
  let intervalViolations : List Violation :=
    match st.lastCallTime with
    | some lastCall =>
        let timeSinceLastCall := now - lastCall
        if timeSinceLastCall < minIntervalMs then
          [{ vtype := "MINIMUM_INTERVAL_VIOLATION"
             retryAfter := minIntervalMs - timeSinceLastCall }]
        else []
    | none => []
  let oneMinuteAgo := now - 60000
  let recentCalls := st.callHistory.filter (fun time => time > oneMinuteAgo)
  let rateViolations : List Violation :=
    if recentCalls.length ≥ maxCallsPerMinute then
      let oldestCall := recentCalls.foldl min (recentCalls.headD 0)
      [{ vtype := "RATE_LIMIT_EXCEEDED", retryAfter := oldestCall + 60000 - now }]
    else []
  let dateViolations : List Violation :=
    if dateValidationOk then [] else [{ vtype := "DATE_RANGE_VIOLATION", retryAfter := 0 }]
  let violations := blockedViolations ++ intervalViolations ++ rateViolations ++ dateViolations
  ({ isValid := violations.isEmpty, violations := violations }, st1)

/-- `IndiaMartComplianceManager.recordCall` from `api-compliance.js`,
lines 112-120: remember the call time and prune history to the last hour. -/
def recordCall (now : Int) (st : ComplianceState) : ComplianceState :=
  let oneHourAgo := now - 60 * 60 * 1000
  { st with
    lastCallTime := some now
    callHistory := (st.callHistory ++ [now]).filter (fun time => time > oneHourAgo) }

end ApiCompliance

namespace Cache

/-- `CacheEntry` from `cache-manager.js`. -/
structure CacheEntry (α : Type) where
  value : α
  createdAt : Int
  ttl : Int
  accessCount : Nat
  lastAccessed : Int
  deriving Repr, DecidableEq

/-- `CacheEntry.isExpired` from `cache-manager.js`. -/
def CacheEntry.isExpired {α : Type} (now : Int) (e : CacheEntry α) : Bool :=
  now - e.createdAt > e.ttl

/-- `CacheEntry.touch` from `cache-manager.js`. -/
def CacheEntry.touch {α : Type} (now : Int) (e : CacheEntry α) : CacheEntry α :=
  { e with accessCount := e.accessCount + 1, lastAccessed := now }

/-- `CacheManager` state from `cache-manager.js`: the JS `Map` is a list of
key/entry pairs in insertion order, plus the hit/miss/eviction counters.
The redundant `stats.size` mirror of `this.cache.size` is not modelled
separately; `size` is the length of `entries`. -/
structure CacheState (α : Type) where
  entries : List (String × CacheEntry α)
  maxSize : Nat
  hits : Nat
  misses : Nat
  evictions : Nat
  deriving Repr, DecidableEq

/-- An empty cache with the given capacity. -/
def emptyCache (α : Type) (maxSize : Nat) : CacheState α :=
  { entries := [], maxSize := maxSize, hits := 0, misses := 0, evictions := 0 }

/-- The SDK constructs its cache with `defaultTTL: 300000` (5 minutes). -/
def defaultTTL : Int := 300000

/-- `CacheManager.get` from `cache-manager.js`, lines 71-89. -/
def get {α : Type} (now : Int) (key : String) (st : CacheState α) :
    Option α × CacheState α :=
  match st.entries.lookup key with
  | none => (none, { st with misses := st.misses + 1 })
  | some entry =>
      if entry.isExpired now then
        (none, { st with
                  entries := st.entries.filter (fun p => p.1 ≠ key)
                  misses := st.misses + 1 })
      else
        (some entry.value,
         { st with
            entries := st.entries.map
              (fun p => if p.1 = key then (p.1, p.2.touch now) else p)
            hits := st.hits + 1 })

/-- `CacheManager.evictLRU` from `cache-manager.js`, lines 116-132:
scan the map for the entry with `lastAccessed` strictly below the running
minimum, which starts at `Date.now()`; delete it when one was found. -/
def evictLRU {α : Type} (now : Int) (st : CacheState α) : CacheState α :=
  let scan := st.entries.foldl
    (fun (acc : Option String × Int) p =>
      if p.2.lastAccessed < acc.2 then (some p.1, p.2.lastAccessed) else acc)
    (none, now)
  match scan.1 with
  | some lruKey =>
      { st with
        entries := st.entries.filter (fun p => p.1 ≠ lruKey)
        evictions := st.evictions + 1 }
  | none => st

/-- `CacheManager.set` from `cache-manager.js`, lines 97-111. -/
def set {α : Type} (now : Int) (key : String) (value : α) (ttl : Int)
    (st : CacheState α) : CacheState α :=
  let st1 :=
    if (st.entries.lookup key).isSome then
      { st with entries := st.entries.filter (fun p => p.1 ≠ key) }
    else st
  let st2 := if st1.entries.length ≥ st1.maxSize then evictLRU now st1 else st1
  { st2 with
    entries := st2.entries ++
      [(key, { value := value, createdAt := now, ttl := ttl
               accessCount := 0, lastAccessed := now })] }

/-- The statistics object returned by `CacheManager.getStats`
(`memoryUsage` is environment probing and omitted). -/
structure CacheStats where
  hits : Nat
  misses : Nat
  evictions : Nat
  size : Nat
  hitRate : Rat
  missRate : Rat
  totalRequests : Nat
  deriving Repr, DecidableEq

/-- `CacheManager.getStats` from `cache-manager.js`, lines 174-194.
The rates are ratios of naturals, so the source's `isNaN` fallbacks are
the identity here; `Math.round(x * 100) / 100` is `jsRound`. -/
def getStats {α : Type} (st : CacheState α) : CacheStats :=
  let totalRequests := st.hits + st.misses
  let hitRate : Rat :=
    if totalRequests > 0 then ((st.hits : Rat) / (totalRequests : Rat)) * 100 else 0
  let missRate : Rat :=
    if totalRequests > 0 then ((st.misses : Rat) / (totalRequests : Rat)) * 100 else 0
  { hits := st.hits
    misses := st.misses
    evictions := st.evictions
    size := st.entries.length
    hitRate := (jsRound (hitRate * 100) : Rat) / 100
    missRate := (jsRound (missRate * 100) : Rat) / 100
    totalRequests := totalRequests }

/-- JS code-unit comparison of char lists: is `as` at most `bs` in the
lexicographic order `Array.prototype.sort` uses on strings? -/
def charsLeB : List Char → List Char → Bool
  | [], _ => true
  | _ :: _, [] => false
  | a :: as, b :: bs =>
      if a.toNat < b.toNat then true
      else if b.toNat < a.toNat then false
      else charsLeB as bs

/-- JS string comparison used when sorting parameter names. -/
def strLeB (a b : String) : Bool := charsLeB a.toList b.toList

/-- Insert a name into an already sorted list of names (support for
`generateKey`; JS `Array.prototype.sort` yields the same sorted result). -/
def insertName (x : String) : List String → List String
  | [] => [x]
  | y :: ys => if strLeB x y then x :: y :: ys else y :: insertName x ys

/-- Sort parameter names as JS `Object.keys(params).sort()` does
(lexicographic; insertion sort gives the identical sorted list). -/
def sortNames : List String → List String
  | [] => []
  | x :: xs => insertName x (sortNames xs)

/-- `CacheManager.generateKey` from `cache-manager.js`, lines 57-64:
sort the parameter names, render each as `name:value` and join with `|`
under the prefix. -/
def generateKey (keyPrefix : String) (params : List (String × String)) : String :=
  let sortedParams := sortNames (params.map Prod.fst)
  let rendered := sortedParams.map
    (fun name => name ++ ":" ++ ((params.lookup name).getD ""))
  keyPrefix ++ ":" ++ String.intercalate "|" rendered

end Cache

namespace DateCompliance

/-- `this.limits.maxDateRangeDays` in `date-compliance.js`. -/
def maxDateRangeDays : Int := 7

/-- `this.limits.maxHistoricalDays` in `date-compliance.js`. -/
def maxHistoricalDays : Int := 365

/-- One day in milliseconds. -/
def dayMs : Int := 1000 * 60 * 60 * 24

/-- Result object of `DateComplianceManager.validateDateRange`; the
informational `dateRange` / `historical` payloads are omitted. -/
structure DateValidationResult where
  isValid : Bool
  errors : List String
  warnings : List String
  compliance : String
  deriving Repr, DecidableEq

/-- `DateComplianceManager.validateDateRange` from `date-compliance.js`,
lines 27-104. A date argument is `some` milliseconds when `new Date(x)`
parses and `none` when it yields NaN; parse failures return early with
only the format errors, exactly as the source does. -/
def validateDateRange (startDate endDate : Option Int) (now : Int) :
    DateValidationResult :=
  let parseErrors :=
    (if startDate.isNone then ["Invalid start date format"] else []) ++
    (if endDate.isNone then ["Invalid end date format"] else [])
  if parseErrors ≠ [] then
    { isValid := false, errors := parseErrors, warnings := []
      compliance := "INVALID_DATES" }
  else
    let s := startDate.getD 0
    let e := endDate.getD 0
    let daysDiff := jsCeilDiv (e - s) dayMs
    let daysFromNow := jsCeilDiv (now - s) dayMs
    let errors :=
      (if s ≥ e then ["Start date must be before end date"] else []) ++
      (if e > now then ["End date cannot be in the future"] else []) ++
      (if daysDiff > maxDateRangeDays then
        ["Date range cannot exceed 7 days (IndiaMART limit)"] else []) ++
      (if daysFromNow > maxHistoricalDays then
        ["Data older than 365 days is not available (IndiaMART limit)"] else []) ++
      (if daysFromNow < 0 then ["Start date cannot be in the future"] else [])
    let warnings :=
      (if daysDiff = maxDateRangeDays then ["Using maximum allowed date range"] else []) ++
      (if daysFromNow > 300 then
        ["Requesting data older than 300 days - may have limited availability"] else [])
    { isValid := errors.isEmpty
      errors := errors
      warnings := warnings
      compliance := if errors.isEmpty then "COMPLIANT" else "NON_COMPLIANT" }

/-- Result object of `DateComplianceManager.getLastDaysRange`. -/
structure LastDaysRange where
  startDate : Int
  endDate : Int
  requestedDays : Int
  actualDays : Int
  compliance : DateValidationResult
  deriving Repr, DecidableEq

/-- `DateComplianceManager.getLastDaysRange` from `date-compliance.js`,
lines 144-161. `setDate(getDate() - actualDays)` is modelled as exact
day arithmetic in a fixed-offset timezone (IST has no DST); the unused
local `startDate` of the source is dropped. -/
def getLastDaysRange (days : Int) (now : Int) : LastDaysRange :=
  let actualDays := min days maxDateRangeDays
  let actualStartDate := now - actualDays * dayMs
  { startDate := actualStartDate
    endDate := now
    requestedDays := days
    actualDays := actualDays
    compliance := validateDateRange (some actualStartDate) (some now) now }

end DateCompliance

namespace ErrorHandler

/-- The `details` object attached to an `IndiaMartError` by
`createSpecificError` (`error-handler.js`): classified type, retry delay
and suggestion. -/
structure ErrorDetails where
  etype : String
  retryAfter : Int
  suggestion : String
  deriving Repr, DecidableEq

/-- `IndiaMartError` (`error-handler.js`): message, numeric code, status
and the optional classified `details` (`new IndiaMartError(m, c)` leaves
`details` as an empty object, modelled as `none`). -/
structure IMError where
  message : String
  code : Option Int
  status : String
  details : Option ErrorDetails
  deriving Repr, DecidableEq

/-- JS `message && message.includes(pat)` on a nullable string. -/
def msgIncludes (message : Option String) (pat : String) : Bool :=
  match message with
  | some s => strIncludes s pat
  | none => false

/-- JS `message || fallback` (empty strings are falsy). -/
def jsOrString (message : Option String) (fallback : String) : String :=
  match message with
  | some s => if s = "" then fallback else s
  | none => fallback

/-- `IndiaMartErrorHandler.createSpecificError` from `error-handler.js`,
lines 64-249: the switch over the IndiaMART error code with
message-substring dispatch; unmatched messages in handled codes fall
through to the `UNHANDLED_ERROR` fallback. -/
def createSpecificError (code : Int) (status : String) (message : Option String) :
    IMError :=
  let fallback : IMError :=
    { message := jsOrString message "Unknown API error"
      code := some code, status := status
      details := some { etype := "UNHANDLED_ERROR", retryAfter := 10 * 1000
                        suggestion := "Check error details and retry" } }
  if code = 429 then
    if msgIncludes message "5 minutes" then
      { message := "Rate limit exceeded - API can only be called once every 5 minutes"
        code := some code, status := status
        details := some { etype := "RATE_LIMIT_5_MIN", retryAfter := 5 * 60 * 1000
                          suggestion := "Wait 5 minutes before retrying" } }
    else if msgIncludes message "Too Many Requests" then
      { message := "Too many requests - API key disabled for 15 minutes"
        code := some code, status := status
        details := some { etype := "RATE_LIMIT_15_MIN", retryAfter := 15 * 60 * 1000
                          suggestion := "Wait 15 minutes before retrying" } }
    else fallback
  else if code = 401 then
    if msgIncludes message "incorrect" then
      { message := "Invalid API key - Please check your CRM key"
        code := some code, status := status
        details := some { etype := "INVALID_API_KEY", retryAfter := 0
                          suggestion := "Verify your INDIAMART_CRM_KEY in environment variables" } }
    else if msgIncludes message "expired" ∧ msgIncludes message "no longer in use" then
      { message := "API key expired due to inactivity - Generate new key"
        code := some code, status := status
        details := some { etype := "API_KEY_EXPIRED_INACTIVITY", retryAfter := 0
                          suggestion := "Generate new API key from IndiaMART seller portal" } }
    else if msgIncludes message "expired" ∧ msgIncludes message "generated" then
      { message := "API key expired - New key generated"
        code := some code, status := status
        details := some { etype := "API_KEY_EXPIRED_NEW_GENERATED", retryAfter := 0
                          suggestion := "Use the new API key from your email/SMS" } }
    else fallback
  else if code = 204 then
    if msgIncludes message "no leads" then
      { message := "No leads found in the specified time range"
        code := some code, status := status
        details := some { etype := "NO_LEADS", retryAfter := 0
                          suggestion := "Try a different time range" } }
    else if msgIncludes message "available after 24 hours" then
      { message := "Historical data not yet available - Wait 24 hours"
        code := some code, status := status
        details := some { etype := "HISTORICAL_DATA_UNAVAILABLE", retryAfter := 24 * 60 * 60 * 1000
                          suggestion := "Wait 24 hours or fetch only recent data" } }
    else fallback
  else if code = 400 then
    if msgIncludes message "365 days" then
      { message := "Date range exceeds 365 days limit"
        code := some code, status := status
        details := some { etype := "DATE_RANGE_TOO_LARGE", retryAfter := 0
                          suggestion := "Reduce date range to last 365 days" } }
    else if msgIncludes message "date parameters" then
      { message := "Missing required date parameters"
        code := some code, status := status
        details := some { etype := "MISSING_DATE_PARAMETERS", retryAfter := 0
                          suggestion := "Provide both start_time and end_time parameters" } }
    else if msgIncludes message "Date format" then
      { message := "Invalid date format"
        code := some code, status := status
        details := some { etype := "INVALID_DATE_FORMAT", retryAfter := 0
                          suggestion := "Use DD-MM-YYYY HH:MM:SS format" } }
    else fallback
  else if code = 500 then
    { message := "IndiaMART server error - Internal issues"
      code := some code, status := status
      details := some { etype := "SERVER_ERROR", retryAfter := 30 * 1000
                        suggestion := "Retry after 30 seconds or contact IndiaMART support" } }
  else
    { message := "Unknown error: " ++ (message.getD "undefined")
      code := some code, status := status
      details := some { etype := "UNKNOWN_ERROR", retryAfter := 10 * 1000
                        suggestion := "Check IndiaMART API documentation" } }

/-- `noRetryTypes` inside `IndiaMartErrorHandler.shouldRetry`. -/
def noRetryTypes : List String :=
  ["INVALID_API_KEY", "API_KEY_EXPIRED_INACTIVITY", "API_KEY_EXPIRED_NEW_GENERATED",
   "NO_LEADS", "DATE_RANGE_TOO_LARGE", "MISSING_DATE_PARAMETERS", "INVALID_DATE_FORMAT"]

/-- `IndiaMartErrorHandler.shouldRetry` from `error-handler.js`, lines
254-271. `maxRetries` is the handler's configured maximum (3 by default);
an error without classified details has `details?.type` undefined, which
is never a member of `noRetryTypes`. -/
def shouldRetry (error : IMError) (attemptCount maxRetries : Nat) : Bool :=
  if attemptCount ≥ maxRetries then false
  else
    match error.details with
    | some d => ¬ noRetryTypes.contains d.etype
    | none => true

/-- `IndiaMartErrorHandler.getErrorType` from `error-handler.js`, lines
287-294 (JS `undefined >= 500` is false, hence the `Option`). -/
def getErrorType (statusCode : Option Int) (errorMessage : Option String) : String :=
  if statusCode = some 401 then "INVALID_API_KEY"
  else if statusCode = some 429 then "RATE_LIMIT_EXCEEDED"
  else if (match statusCode with | some c => decide (c ≥ 500) | none => false) then "SERVER_ERROR"
  else if msgIncludes errorMessage "rate limit" then "RATE_LIMIT_EXCEEDED"
  else if msgIncludes errorMessage "invalid key" then "INVALID_API_KEY"
  else "UNKNOWN_ERROR"

/-- `IndiaMartErrorHandler.isRetryableError` from `error-handler.js`,
lines 276-282: build a synthetic error whose details carry only the
coarse `getErrorType` classification and ask `shouldRetry` at attempt 0. -/
def isRetryableError (statusCode : Option Int) (errorMessage : Option String)
    (maxRetries : Nat) : Bool :=
  shouldRetry
    { message := errorMessage.getD ""
      code := statusCode
      status := ""
      details := some { etype := getErrorType statusCode errorMessage
                        retryAfter := 0, suggestion := "" } }
    0 maxRetries

end ErrorHandler

namespace Sdk

/-- The error handler the client constructs by default has `maxRetries = 3`;
`isRetryableError` consults this handler-level bound. -/
def handlerMaxRetries : Nat := 3

/-- The payload of a successful `processResponse` result consumed by the
`getLeads` loop (`indiamart-client.js`); the lead records themselves are
opaque values of type `α`. -/
structure LeadsResult (α : Type) where
  code : Option Int
  leads : List α
  deriving Repr, DecidableEq

/-- One transport attempt, as observed by an iteration of the `getLeads`
`while` loop: a successful processed response, a processed response with
`success: false` (status and error string), or an exception thrown by
`fetch`/response processing (carrying whatever `statusCode` field the
thrown object had). Cancellation (`ABORT_ERR`) is not modelled. -/
inductive AttemptOutcome (α : Type) where
  | success (value : LeadsResult α)
  | failureRes (statusCode : Option Int) (error : String)
  | thrownErr (statusCode : Option Int) (message : String)

/-- A JS exception as the SDK's catch block sees it: its `message` and its
optional `statusCode` field. Note that `new IndiaMartError(message, code)`
sets `code`, not `statusCode`, so errors thrown by the loop itself reach
the catch with `statusCode` undefined. -/
structure ThrownError where
  message : String
  statusCode : Option Int
  deriving Repr, DecidableEq

/-- The body of the `while (attemptCount < maxRetries)` loop of
`IndiaMartClient.getLeads` (`indiamart-client.js`, lines 519-636), as a
fuel recursion with `fuel = maxRetries - attemptCount`. Each iteration
performs one transport attempt (`outcomes a`); a `success: false` result
first consults `isRetryableError(result.statusCode, result.error)` inside
the try block, and when that does not continue the loop it throws
`new IndiaMartError(result.error, result.statusCode)` — which the very
same iteration's catch block receives (with `statusCode` undefined) and
re-examines via `isRetryableError(undefined, message)`. Returns the loop
outcome together with the number of transport attempts made. -/
def getLeadsGo {α : Type} (outcomes : Nat → AttemptOutcome α) (maxRetries : Nat) :
    Nat → Nat → Except ThrownError (LeadsResult α) × Nat
  | 0, _ =>
      (Except.error { message := "Failed after " ++ toString maxRetries ++ " attempts"
                      statusCode := none }, 0)
  | fuel + 1, attemptCount =>
      match outcomes attemptCount with
      | .success v => (Except.ok v, 1)
      | .failureRes sc msg =>
          let tryRetry := ErrorHandler.isRetryableError sc (some msg) handlerMaxRetries
          if tryRetry ∧ attemptCount + 1 < maxRetries then
            let r := getLeadsGo outcomes maxRetries fuel (attemptCount + 1)
            (r.1, r.2 + 1)
          else
            let aAfterTry := if tryRetry then attemptCount + 1 else attemptCount
            let e : ThrownError := { message := msg, statusCode := none }
            let catchRetry := ErrorHandler.isRetryableError none (some msg) handlerMaxRetries
            if catchRetry ∧ aAfterTry + 1 < maxRetries then
              let r := getLeadsGo outcomes maxRetries fuel (aAfterTry + 1)
              (r.1, r.2 + 1)
            else (Except.error e, 1)
      | .thrownErr sc msg =>
          let e : ThrownError := { message := msg, statusCode := sc }
          let catchRetry := ErrorHandler.isRetryableError sc (some msg) handlerMaxRetries
          if catchRetry ∧ attemptCount + 1 < maxRetries then
            let r := getLeadsGo outcomes maxRetries fuel (attemptCount + 1)
            (r.1, r.2 + 1)
          else (Except.error e, 1)

/-- `IndiaMartClient.getLeads` (`indiamart-client.js`, lines 500-636):
the pre-loop compliance re-validation on the formatted date strings
(abstracted to `clientComplianceOk`; its failure throws the
`DATE_COMPLIANCE_ERROR` before any transport attempt) followed by the
retry loop started at `attemptCount = 0`. -/
def getLeads {α : Type} (outcomes : Nat → AttemptOutcome α)
    (clientComplianceOk : Bool) (maxRetries : Nat) :
    Except ThrownError (LeadsResult α) × Nat :=
  if clientComplianceOk then getLeadsGo outcomes maxRetries maxRetries 0
  else (Except.error { message := "Date compliance error", statusCode := none }, 0)

/-- Result object of `InputValidator.validateDate` (`input-validator.js`):
validity, the parsed instant (meaningful when valid) and the error list. -/
structure InputValidation where
  isValid : Bool
  value : Int
  errors : List String
  deriving Repr, DecidableEq

/-- The response object `IndiaMartSDK.getLeadsForDateRange` returns
(`sdk.js`): the failure shape is
`{success: false, error, code, leads: [], raw: null, downloadPath: null,
compliance?}` and the success shape carries the result payload; the
passthrough `message`/`totalRecords`/`raw`/`downloadPath` fields are
omitted. `error?` is the `error` string field, present only on failure. -/
structure SdkResponse (α : Type) where
  success : Bool
  error? : Option String
  code : Option Int
  leads : List α
  compliance? : Option DateCompliance.DateValidationResult
  deriving Repr, DecidableEq

/-- Observable side effects of one orchestrated request, in order. -/
inductive OrchEvent where
  | cacheGet
  | cacheSet
  | rateCheck
  | transportCall
  | recordCallEv (success : Bool)
  deriving Repr, DecidableEq

/-- Everything `getLeadsForDateRange` leaves behind: the returned response,
the cache and rate-limiter states after the request, and the trace of
cache/rate-limiter/transport interactions. -/
structure OrchResult (α : Type) where
  response : SdkResponse α
  cache : Cache.CacheState (SdkResponse α)
  rate : RateLimiter.RateLimitData
  events : List OrchEvent

/-- `IndiaMartSDK.getLeadsForDateRange` from `sdk.js`, lines 553-734:
input validation, non-configurable date compliance, cache lookup,
rate-limiter check, the client call (`getLeads` with its default
`maxRetries = 3`), and the success/failure bookkeeping. Logging and the
JSON download are omitted; `toISOString` in the cache key is modelled by
decimal rendering of the instant (both injective on instants). -/
def getLeadsForDateRange {α : Type} (now : Int)
    (startValidation endValidation : InputValidation)
    (clientComplianceOk : Bool)
    (outcomes : Nat → AttemptOutcome α)
    (cache : Cache.CacheState (SdkResponse α))
    (rate : RateLimiter.RateLimitData) : OrchResult α :=
  if ¬ (startValidation.isValid ∧ endValidation.isValid) then
    { response :=
        { success := false
          error? := some ("Invalid date parameters: " ++
            String.intercalate ", " (startValidation.errors ++ endValidation.errors))
          code := some 400, leads := [], compliance? := none }
      cache := cache, rate := rate, events := [] }
  else
    let compliance :=
      DateCompliance.validateDateRange
        (some startValidation.value) (some endValidation.value) now
    if ¬ compliance.isValid then
      { response :=
          { success := false
            error? := some ("Date compliance error: " ++
              String.intercalate ", " compliance.errors)
            code := some 400, leads := [], compliance? := some compliance }
        cache := cache, rate := rate, events := [] }
    else
      let cacheKey := Cache.generateKey "leads"
        [("startDate", toString startValidation.value),
         ("endDate", toString endValidation.value)]
      let cached := Cache.get now cacheKey cache
      match cached.1 with
      | some cachedResult =>
          { response := cachedResult, cache := cached.2, rate := rate
            events := [.cacheGet] }
      | none =>
          let rateCheck := RateLimiter.canMakeCall now rate
          if ¬ rateCheck.1.allowed then
            -- `throw new Error(...)` at line 618, caught at line 682:
            -- `recordCall(false)` runs and `err.statusCode` is undefined
            let rate2 := RateLimiter.recordCall now false rateCheck.2
            { response :=
                { success := false
                  error? := some ("Rate limit exceeded: " ++ rateCheck.1.message)
                  code := some 500, leads := [], compliance? := some compliance }
              cache := cached.2, rate := rate2
              events := [.cacheGet, .rateCheck, .recordCallEv false] }
          else
            let run := getLeads outcomes clientComplianceOk 3
            let transportEvents := List.replicate run.2 OrchEvent.transportCall
            match run.1 with
            | Except.ok result =>
                let rate2 := RateLimiter.recordCall now true rateCheck.2
                let responseData : SdkResponse α :=
                  { success := true, error? := none, code := result.code
                    leads := result.leads, compliance? := some compliance }
                let cache2 := Cache.set now cacheKey responseData 300000 cached.2
                { response := responseData, cache := cache2, rate := rate2
                  events := [.cacheGet, .rateCheck] ++ transportEvents ++
                    [.recordCallEv true, .cacheSet] }
            | Except.error err =>
                let rate2 := RateLimiter.recordCall now false rateCheck.2
                { response :=
                    { success := false
                      error? := some err.message
                      code := some (err.statusCode.getD 500)
                      leads := [], compliance? := some compliance }
                  cache := cached.2, rate := rate2
                  events := [.cacheGet, .rateCheck] ++ transportEvents ++
                    [.recordCallEv false] }

end Sdk

section RateLimiterClaims

open RateLimiter

/-- Helper: the post-block tail of `canMakeCall` on an empty call history
always admits and leaves the file as loaded. -/
theorem canMakeCallAfterBlock_empty (now : Int) (orig : RateLimitData) :
    canMakeCall.canMakeCallAfterBlock now orig { calls := [], blockedUntil := none } =
      ({ allowed := true, reason := "OK", retryAfter := 0
         message := "API call allowed" }, orig) := rfl

/-- C1 counterexample: `RateLimiter.canMakeCall` applies no minimum-interval
rule. Starting from an empty limiter, record one successful call at time 0;
an admission check only 1000 ms later (far less than the 5-minute
`MIN_INTERVAL` of `api-compliance.js`) is allowed, where the claim requires
it to be denied with the remaining wait. -/
theorem c1_counterexample :
    (RateLimiter.recordCall 0 true { calls := [], blockedUntil := none }).calls = [0] ∧
    (RateLimiter.canMakeCall 1000
      (RateLimiter.recordCall 0 true { calls := [], blockedUntil := none })).1.allowed = true ∧
    (1000 : Int) - 0 < ApiCompliance.minIntervalMs := by
  refine ⟨rfl, ?_, by decide⟩
  decide

/-- C1 (amended): the minimum-interval rule lives in
`IndiaMartComplianceManager.validateCall` (`api-compliance.js`), not in
`RateLimiter.canMakeCall`. Whenever a last call time is recorded and less
than `MIN_INTERVAL` (5 minutes) has elapsed, `validateCall` denies the
call with a `MINIMUM_INTERVAL_VIOLATION` carrying
`retryAfter = MIN_INTERVAL - elapsed`; `RateLimiter.canMakeCall` applies
no minimum-interval rule, admitting a request at any time after a single
recorded call. -/
theorem c1_amended (now lastCall : Int) (dateOk : Bool) (st : ApiCompliance.ComplianceState)
    (hlast : st.lastCallTime = some lastCall)
    (helapsed : now - lastCall < ApiCompliance.minIntervalMs)
    (t checkTime : Int) :
    ((ApiCompliance.validateCall now dateOk st).1.isValid = false ∧
      (⟨"MINIMUM_INTERVAL_VIOLATION",
        ApiCompliance.minIntervalMs - (now - lastCall)⟩ : ApiCompliance.Violation) ∈
        (ApiCompliance.validateCall now dateOk st).1.violations) ∧
    (RateLimiter.canMakeCall checkTime { calls := [t], blockedUntil := none }).1.allowed = true := by
  constructor
  · have hmem : (⟨"MINIMUM_INTERVAL_VIOLATION",
        ApiCompliance.minIntervalMs - (now - lastCall)⟩ : ApiCompliance.Violation) ∈
        (ApiCompliance.validateCall now dateOk st).1.violations := by
      simp only [ApiCompliance.validateCall, hlast]
      rw [if_pos helapsed]
      simp
    refine ⟨?_, hmem⟩
    have hne : (ApiCompliance.validateCall now dateOk st).1.violations ≠ [] :=
      List.ne_nil_of_mem hmem
    show (ApiCompliance.validateCall now dateOk st).1.violations.isEmpty = false
    simpa [List.isEmpty_iff] using hne
  · show (RateLimiter.canMakeCall.canMakeCallAfterBlock checkTime
      { calls := [t], blockedUntil := none } { calls := [t], blockedUntil := none }).1.allowed = true
    simp only [RateLimiter.canMakeCall.canMakeCallAfterBlock]
    have h1 : (([t].filter (fun callTime => callTime > checkTime - 60 * 60 * 1000)).length) ≤ 1 :=
      le_trans (List.length_filter_le _ _) (by simp)
    rw [if_neg (by simp only [RateLimiter.callsPerHour]; omega)]
    have h2 : ((([t].filter (fun callTime => callTime > checkTime - 60 * 60 * 1000)).filter
        (fun callTime => callTime > checkTime - 60 * 1000)).length) ≤ 1 :=
      le_trans (List.length_filter_le _ _) h1
    rw [if_neg (by simp only [RateLimiter.callsPerMinute]; omega)]

/-- C1 witness: `c1_amended` at a concrete state whose last recorded call
was 1000 ms ago. -/
theorem c1_amended_witness :
    ((ApiCompliance.validateCall 1000 true ⟨[], some 0, false, none⟩).1.isValid = false ∧
      (⟨"MINIMUM_INTERVAL_VIOLATION",
        ApiCompliance.minIntervalMs - (1000 - 0)⟩ : ApiCompliance.Violation) ∈
        (ApiCompliance.validateCall 1000 true ⟨[], some 0, false, none⟩).1.violations) ∧
    (RateLimiter.canMakeCall 1000 { calls := [0], blockedUntil := none }).1.allowed = true :=
  c1_amended 1000 0 true ⟨[], some 0, false, none⟩ rfl (by decide) 0 1000

/-- C3 counterexample: a state whose block has elapsed and whose history
holds five records all younger than one hour (indeed within the trailing
minute). Under the claim those records are retained after the block
clears, so the per-minute counter (5 ≥ `MAX_PER_MINUTE`) would deny the
very next check; the code instead empties the whole history when the
block expires and admits the call, leaving the stored file untouched. -/
theorem c3_counterexample :
    ((1000000 : Int) ≥ 999000) ∧
    ((([999100, 999200, 999300, 999400, 999500] : List Int).filter
        (fun t => t > (1000000 : Int) - 60 * 60 * 1000)).length = 5) ∧
    (RateLimiter.canMakeCall 1000000
      { calls := [999100, 999200, 999300, 999400, 999500],
        blockedUntil := some 999000 }).1.allowed = true := by
  refine ⟨by decide, by decide, ?_⟩
  decide

/-- C3 (amended): once `blockedUntil` has passed, the very next
`canMakeCall` admits the call with no manual reset — but it does so by
discarding the entire call history (the minute/hour counters restart from
zero rather than continuing from the pruned records), and on this allowed
path nothing is saved, so the stored file still holds the stale block and
history. -/
theorem c3_amended (data : RateLimiter.RateLimitData) (b now : Int)
    (hb : data.blockedUntil = some b) (hexp : b ≤ now) :
    (RateLimiter.canMakeCall now data).1 =
      ⟨true, "OK", 0, "API call allowed"⟩ ∧
    (RateLimiter.canMakeCall now data).2 = data := by
  have hnl : ¬ (now < b) := not_lt.mpr hexp
  simp only [RateLimiter.canMakeCall, hb, if_neg hnl]
  rw [canMakeCallAfterBlock_empty]
  exact ⟨rfl, rfl⟩

/-- C3 witness: `c3_amended` at a concrete blocked state whose block
expired at time 5, checked at time 10. -/
theorem c3_amended_witness :
    (RateLimiter.canMakeCall 10 { calls := [1, 2, 3], blockedUntil := some 5 }).1 =
      ⟨true, "OK", 0, "API call allowed"⟩ ∧
    (RateLimiter.canMakeCall 10 { calls := [1, 2, 3], blockedUntil := some 5 }).2 =
      { calls := [1, 2, 3], blockedUntil := some 5 } :=
  c3_amended { calls := [1, 2, 3], blockedUntil := some 5 } 5 10 rfl (by decide)

/-- C4 counterexample: an attempted call that reached the transport and
failed is reported to the limiter as `recordCall(false)`; the claim
requires its timestamp to be appended, but `recordCall` pushes and then
immediately pops it, leaving the history unchanged. -/
theorem c4_counterexample :
    (RateLimiter.recordCall 10 false { calls := [5], blockedUntil := none }).calls = [5] ∧
    (RateLimiter.recordCall 10 false { calls := [5], blockedUntil := none }).calls ≠
      [5] ++ [10] := by decide

/-- C4 (amended): `recordCall` appends the timestamp only when
`success = true`; every failed call — the SDK invokes `recordCall(false)`
for rate-limiter denials and transport/application failures alike — leaves
the quota history unchanged. -/
theorem c4_amended (now : Int) (success : Bool) (data : RateLimiter.RateLimitData) :
    (RateLimiter.recordCall now success data).calls =
      (if success then data.calls ++ [now] else data.calls) ∧
    (RateLimiter.recordCall now success data).blockedUntil = data.blockedUntil := by
  cases success <;> simp [RateLimiter.recordCall]

end RateLimiterClaims

section DateAndCacheClaims

/-- Helper: `validateDateRange` reports `isValid` exactly when its error
list is empty, in both the early-return and the full branch. -/
theorem validateDateRange_isValid_eq (sd ed : Option Int) (now : Int) :
    (DateCompliance.validateDateRange sd ed now).isValid =
      (DateCompliance.validateDateRange sd ed now).errors.isEmpty := by
  cases sd <;> cases ed <;> rfl

/-- C5 counterexample: an unparseable start date together with an end date
10 days in the future. The future-end rule is violated (2000 > 1000), yet
the validator returns only the parse error: the invalid-format check
short-circuits the remaining rules, so the error list does not contain one
entry per violated rule. -/
theorem c5_counterexample :
    (DateCompliance.validateDateRange none (some 2000) 1000).errors =
      ["Invalid start date format"] ∧
    "End date cannot be in the future" ∉
      (DateCompliance.validateDateRange none (some 2000) 1000).errors ∧
    ((2000 : Int) > 1000) := by
  refine ⟨rfl, by decide, by decide⟩

/-- C5 (amended): parse failures short-circuit (only the format errors are
returned); once both dates parse, the remaining rules are evaluated
independently and all violations collected — in particular, for every
parsed pair whose span exceeds `MAX_SPAN` (7 days) the range-too-long
violation is present regardless of which other violations also occur, and
the result is invalid. -/
theorem c5_amended (s e now : Int)
    (hspan : jsCeilDiv (e - s) DateCompliance.dayMs > DateCompliance.maxDateRangeDays) :
    "Date range cannot exceed 7 days (IndiaMART limit)" ∈
      (DateCompliance.validateDateRange (some s) (some e) now).errors ∧
    (DateCompliance.validateDateRange (some s) (some e) now).isValid = false := by
  have hmem : "Date range cannot exceed 7 days (IndiaMART limit)" ∈
      (DateCompliance.validateDateRange (some s) (some e) now).errors := by
    simp only [DateCompliance.validateDateRange, Option.isNone_some, Option.getD_some]
    simp [hspan]
  refine ⟨hmem, ?_⟩
  rw [validateDateRange_isValid_eq]
  simpa [List.isEmpty_iff] using List.ne_nil_of_mem hmem

/-- C5 witness: `c5_amended` on a 9-day span whose end also lies in the
future of `now = 0`, so the range-too-long entry coexists with other
violations. -/
theorem c5_amended_witness :
    "Date range cannot exceed 7 days (IndiaMART limit)" ∈
      (DateCompliance.validateDateRange (some 0) (some (9 * DateCompliance.dayMs)) 0).errors ∧
    (DateCompliance.validateDateRange (some 0) (some (9 * DateCompliance.dayMs)) 0).isValid =
      false :=
  c5_amended 0 (9 * DateCompliance.dayMs) 0 (by decide)

/-- C6: evaluation at the failing input. A cache of capacity 1 holds `"a"`
inserted at time 100; `set` of the distinct key `"b"` at the same
millisecond calls `evictLRU`, whose running minimum starts at `Date.now()`
with a strict comparison, so the entry accessed at that same millisecond
is not selected: nothing is evicted and the size reaches 2 > capacity.
With any strictly later clock (time 200) the same insertion does evict the
oldest entry, witnessing the intended LRU behavior the tie breaks. -/
theorem c6_code_bug_eval :
    (Cache.set 100 "b" (2 : Nat) 300000
      (Cache.set 100 "a" 1 300000 (Cache.emptyCache Nat 1))).entries.length = 2 ∧
    (Cache.emptyCache Nat 1).maxSize = 1 ∧
    (Cache.set 100 "b" (2 : Nat) 300000
      (Cache.set 100 "a" 1 300000 (Cache.emptyCache Nat 1))).evictions = 0 ∧
    (Cache.set 200 "b" (2 : Nat) 300000
      (Cache.set 100 "a" 1 300000 (Cache.emptyCache Nat 1))).entries.length = 1 ∧
    (Cache.set 200 "b" (2 : Nat) 300000
      (Cache.set 100 "a" 1 300000 (Cache.emptyCache Nat 1))).evictions = 1 := by
  decide

/-- Helper: JS `Math.round(q * 100) / 100` stays inside `[0, 100]` for any
rational `q` in `[0, 100]`. -/
theorem jsRound2_bounds (q : Rat) (h0 : 0 ≤ q) (h100 : q ≤ 100) :
    0 ≤ ((jsRound (q * 100) : Rat)) / 100 ∧ ((jsRound (q * 100) : Rat)) / 100 ≤ 100 := by
  have hlow : (0 : Int) ≤ jsRound (q * 100) := by
    rw [jsRound, Int.le_floor]
    push_cast
    linarith
  have hhigh : jsRound (q * 100) ≤ 10000 := by
    have h1 : q * 100 + 1 / 2 ≤ (20001 : Rat) / 2 := by linarith
    have h2 : (Int.floor ((20001 : Rat) / 2)) = 10000 := by norm_num
    calc jsRound (q * 100) = Int.floor (q * 100 + 1 / 2) := rfl
      _ ≤ Int.floor ((20001 : Rat) / 2) := Int.floor_le_floor h1
      _ = 10000 := h2
  have hlowq : (0 : Rat) ≤ (jsRound (q * 100) : Rat) := by exact_mod_cast hlow
  have hhighq : (jsRound (q * 100) : Rat) ≤ 10000 := by exact_mod_cast hhigh
  constructor
  · positivity
  · rw [div_le_iff₀ (by norm_num : (0:Rat) < 100)]
    linarith

end DateAndCacheClaims

section StatsAndLastDaysClaims

/-- C9: for every cache state, `getStats` reports `hitRate` and `missRate`
as rationals in `[0, 100]` (NaN is unrepresentable in this model because
both rates are ratios of naturals, matching the source's `isNaN` guards
being dead code), and with zero requests both rates are exactly 0. -/
theorem c9_stats_bounds {α : Type} (st : Cache.CacheState α) :
    (0 ≤ (Cache.getStats st).hitRate ∧ (Cache.getStats st).hitRate ≤ 100) ∧
    (0 ≤ (Cache.getStats st).missRate ∧ (Cache.getStats st).missRate ≤ 100) ∧
    (st.hits + st.misses = 0 →
      (Cache.getStats st).hitRate = 0 ∧ (Cache.getStats st).missRate = 0) := by
  have key : ∀ (num den : Nat), num ≤ den →
      0 ≤ ((jsRound ((if den > 0 then ((num : Rat) / (den : Rat)) * 100 else 0) * 100) : Rat)) / 100 ∧
      ((jsRound ((if den > 0 then ((num : Rat) / (den : Rat)) * 100 else 0) * 100) : Rat)) / 100 ≤ 100 := by
    intro num den hle
    apply jsRound2_bounds
    · split
      · positivity
      · exact le_refl 0
    · split
      · next hpos =>
          have hc : (num : Rat) ≤ (den : Rat) := by exact_mod_cast hle
          have hdpos : (0 : Rat) < (den : Rat) := by exact_mod_cast hpos
          have h1 : (num : Rat) / (den : Rat) ≤ 1 := (div_le_one hdpos).mpr hc
          linarith
      · norm_num
  have hzero : jsRound (0 : Rat) = 0 := by
    rw [jsRound, Int.floor_eq_zero_iff]
    constructor <;> norm_num
  refine ⟨?_, ?_, ?_⟩
  · simpa only [Cache.getStats] using key st.hits (st.hits + st.misses) (Nat.le_add_right _ _)
  · simpa only [Cache.getStats] using key st.misses (st.hits + st.misses) (Nat.le_add_left _ _)
  · intro h0
    simp only [Cache.getStats, h0]
    norm_num [hzero]

/-- C9 witness: `c9_stats_bounds` at the empty cache of capacity 10, whose
zero-request hypothesis holds by computation. -/
theorem c9_stats_bounds_witness :
    (Cache.getStats (Cache.emptyCache Nat 10)).hitRate = 0 ∧
    (Cache.getStats (Cache.emptyCache Nat 10)).missRate = 0 :=
  (c9_stats_bounds (Cache.emptyCache Nat 10)).2.2 rfl

/-- Helper: a 7-day range ending exactly at `now` passes the date-range
validator with no errors and the maximum-range warning. -/
theorem validateDateRange_sevenDay (now : Int) :
    DateCompliance.validateDateRange (some (now - 7 * DateCompliance.dayMs)) (some now) now =
      { isValid := true, errors := [], warnings := ["Using maximum allowed date range"],
        compliance := "COMPLIANT" } := by
  have h1 : now - (now - 7 * DateCompliance.dayMs) = 7 * DateCompliance.dayMs := by ring
  have hd7 : jsCeilDiv (7 * DateCompliance.dayMs) DateCompliance.dayMs = 7 := by decide
  have hc1 : ¬ (now - 7 * DateCompliance.dayMs ≥ now) := by
    simp only [DateCompliance.dayMs]; omega
  simp only [DateCompliance.validateDateRange, Option.isNone_some, Option.getD_some, h1, hd7,
    DateCompliance.maxDateRangeDays, DateCompliance.maxHistoricalDays]
  simp [hc1]

/-- C10: `getLastDaysRange(n)` reports `requestedDays = n` and
`actualDays = min n 7`, returns a range of exactly `min n 7` days ending
at `now`, and for every request of more than 7 days the clamped range
passes validation (no range-too-long violation — the request is silently
clamped instead). -/
theorem c10_lastDaysRange (days now : Int) :
    (DateCompliance.getLastDaysRange days now).requestedDays = days ∧
    (DateCompliance.getLastDaysRange days now).actualDays = min days 7 ∧
    (DateCompliance.getLastDaysRange days now).endDate = now ∧
    (DateCompliance.getLastDaysRange days now).endDate -
      (DateCompliance.getLastDaysRange days now).startDate =
        min days 7 * DateCompliance.dayMs ∧
    (7 < days →
      (DateCompliance.getLastDaysRange days now).compliance =
        { isValid := true, errors := [],
          warnings := ["Using maximum allowed date range"], compliance := "COMPLIANT" }) := by
  refine ⟨rfl, rfl, rfl, ?_, ?_⟩
  · simp only [DateCompliance.getLastDaysRange, DateCompliance.maxDateRangeDays]
    ring
  · intro h
    have hmin : min days (7 : Int) = 7 := min_eq_right (le_of_lt h)
    simp only [DateCompliance.getLastDaysRange, DateCompliance.maxDateRangeDays, hmin]
    exact validateDateRange_sevenDay now

/-- C10 witness: `c10_lastDaysRange` at a 10-day request, clamped to a
valid 7-day range. -/
theorem c10_lastDaysRange_witness :
    (DateCompliance.getLastDaysRange 10 0).requestedDays = 10 ∧
    (DateCompliance.getLastDaysRange 10 0).actualDays = min 10 7 ∧
    (DateCompliance.getLastDaysRange 10 0).compliance =
      { isValid := true, errors := [], warnings := ["Using maximum allowed date range"],
        compliance := "COMPLIANT" } :=
  ⟨(c10_lastDaysRange 10 0).1, (c10_lastDaysRange 10 0).2.1,
   (c10_lastDaysRange 10 0).2.2.2.2 (by decide)⟩

end StatsAndLastDaysClaims

section ClassifierClaims

/-- C8: `createSpecificError(401, "incorrect")` classifies as
`INVALID_API_KEY` with `retryAfter = 0` and is never retried by
`shouldRetry` (any attempt count, any configured maximum);
`createSpecificError(429, "5 minutes")` classifies as `RATE_LIMIT_5_MIN`
with `retryAfter = 300000` ms and is retryable (`shouldRetry` holds at
attempt 0 under the default maximum of 3). -/
theorem c8_classifier :
    (ErrorHandler.createSpecificError 401 "FAILURE" (some "incorrect")).details =
      some ⟨"INVALID_API_KEY", 0, "Verify your INDIAMART_CRM_KEY in environment variables"⟩ ∧
    (∀ attemptCount maxRetries : Nat,
      ErrorHandler.shouldRetry (ErrorHandler.createSpecificError 401 "FAILURE" (some "incorrect"))
        attemptCount maxRetries = false) ∧
    (ErrorHandler.createSpecificError 429 "FAILURE" (some "5 minutes")).details =
      some ⟨"RATE_LIMIT_5_MIN", 5 * 60 * 1000, "Wait 5 minutes before retrying"⟩ ∧
    ErrorHandler.shouldRetry (ErrorHandler.createSpecificError 429 "FAILURE" (some "5 minutes"))
      0 3 = true := by
  refine ⟨by decide, ?_, by decide, by decide⟩
  intro attemptCount maxRetries
  simp only [ErrorHandler.shouldRetry]
  split
  · rfl
  · decide

end ClassifierClaims

section OrchestratorClaims

/-- Helper: each run of the `getLeads` retry loop performs at most `fuel`
transport attempts. -/
theorem getLeadsGo_calls_le {α : Type} (outcomes : Nat → Sdk.AttemptOutcome α)
    (maxRetries : Nat) : ∀ (fuel a : Nat),
    (Sdk.getLeadsGo outcomes maxRetries fuel a).2 ≤ fuel := by
  intro fuel
  induction fuel with
  | zero => intro a; simp [Sdk.getLeadsGo]
  | succ n ih =>
      intro a
      cases houtcome : outcomes a with
      | success v => simp [Sdk.getLeadsGo, houtcome]
      | failureRes sc msg =>
          simp only [Sdk.getLeadsGo, houtcome]
          split_ifs <;>
            first
              | exact Nat.succ_le_succ (ih _)
              | exact Nat.succ_le_succ (Nat.zero_le n)
      | thrownErr sc msg =>
          simp only [Sdk.getLeadsGo, houtcome]
          split_ifs <;>
            first
              | exact Nat.succ_le_succ (ih _)
              | exact Nat.succ_le_succ (Nat.zero_le n)

/-- Helper: `IndiaMartClient.getLeads` makes at most `maxRetries` transport
attempts. -/
theorem getLeads_calls_le {α : Type} (outcomes : Nat → Sdk.AttemptOutcome α)
    (clientOk : Bool) (maxRetries : Nat) :
    (Sdk.getLeads outcomes clientOk maxRetries).2 ≤ maxRetries := by
  cases clientOk with
  | true => exact getLeadsGo_calls_le outcomes maxRetries maxRetries 0
  | false => simp [Sdk.getLeads]

/-- C2 counterexample: a valid one-day request over an empty cache and an
unconstrained rate limiter, whose transport throws `"connection reset"` on
every attempt. After three attempts the SDK surfaces
`{success: false, error: "connection reset", code: 500}` — the raw
exception message string with a defaulted status code. No classified
kind, `retryable`, `retryAfter` or `suggestion` accompanies it (the
surfaced response shape, taken from the failure return sites of
`getLeadsForDateRange`, has no such fields), refuting "the failure
ultimately surfaced ... is a typed classified error ... never a
raw/untyped exception or generic string". -/
theorem c2_counterexample :
    (Sdk.getLeadsForDateRange (α := Nat) 86400000 ⟨true, 0, []⟩ ⟨true, 86400000, []⟩ true
      (fun _ => Sdk.AttemptOutcome.thrownErr none "connection reset")
      (Cache.emptyCache _ 1000) ⟨[], none⟩).response.error? = some "connection reset" ∧
    (Sdk.getLeadsForDateRange (α := Nat) 86400000 ⟨true, 0, []⟩ ⟨true, 86400000, []⟩ true
      (fun _ => Sdk.AttemptOutcome.thrownErr none "connection reset")
      (Cache.emptyCache _ 1000) ⟨[], none⟩).response.code = some 500 ∧
    (Sdk.getLeadsForDateRange (α := Nat) 86400000 ⟨true, 0, []⟩ ⟨true, 86400000, []⟩ true
      (fun _ => Sdk.AttemptOutcome.thrownErr none "connection reset")
      (Cache.emptyCache _ 1000) ⟨[], none⟩).response.success = false ∧
    (Sdk.getLeadsForDateRange (α := Nat) 86400000 ⟨true, 0, []⟩ ⟨true, 86400000, []⟩ true
      (fun _ => Sdk.AttemptOutcome.thrownErr none "connection reset")
      (Cache.emptyCache _ 1000) ⟨[], none⟩).events.count Sdk.OrchEvent.transportCall = 3 := by
  refine ⟨by decide, by decide, by decide, by decide⟩

/-- C2 (amended): through the SDK path the client retries up to the fixed
`maxRetries = 3` (the SDK passes no override; the bound is configurable
only on direct `client.getLeads` calls), and the failure ultimately
surfaced by `getLeadsForDateRange` is
`{success: false, error: <raw message string>, code: statusCode ?? 500}` —
the classified kind/retryable/retryAfter/suggestion are not part of the
surfaced response. -/
theorem c2_amended {α : Type} (now : Int) (sv ev : Sdk.InputValidation)
    (outcomes : Nat → Sdk.AttemptOutcome α)
    (cache : Cache.CacheState (Sdk.SdkResponse α)) (rate : RateLimiter.RateLimitData)
    (e : Sdk.ThrownError)
    (hv1 : sv.isValid = true) (hv2 : ev.isValid = true)
    (hcomp : (DateCompliance.validateDateRange (some sv.value) (some ev.value) now).isValid = true)
    (hmiss : (Cache.get now (Cache.generateKey "leads"
        [("startDate", toString sv.value), ("endDate", toString ev.value)]) cache).1 = none)
    (hallow : (RateLimiter.canMakeCall now rate).1.allowed = true)
    (herr : (Sdk.getLeads outcomes true 3).1 = Except.error e) :
    (Sdk.getLeads outcomes true 3).2 ≤ 3 ∧
    (Sdk.getLeadsForDateRange now sv ev true outcomes cache rate).response =
      ⟨false, some e.message, some (e.statusCode.getD 500), [],
        some (DateCompliance.validateDateRange (some sv.value) (some ev.value) now)⟩ := by
  refine ⟨getLeads_calls_le outcomes true 3, ?_⟩
  simp [Sdk.getLeadsForDateRange, hv1, hv2, hcomp, hmiss, hallow, herr]

/-- C2 witness: `c2_amended` at the concrete always-failing run of the
counterexample. -/
theorem c2_amended_witness :
    (Sdk.getLeads (α := Nat)
      (fun _ => Sdk.AttemptOutcome.thrownErr none "connection reset") true 3).2 ≤ 3 ∧
    (Sdk.getLeadsForDateRange (α := Nat) 86400000 ⟨true, 0, []⟩ ⟨true, 86400000, []⟩ true
      (fun _ => Sdk.AttemptOutcome.thrownErr none "connection reset")
      (Cache.emptyCache _ 1000) ⟨[], none⟩).response =
      ⟨false, some "connection reset", some 500, [],
        some (DateCompliance.validateDateRange (some 0) (some 86400000) 86400000)⟩ :=
  c2_amended 86400000 ⟨true, 0, []⟩ ⟨true, 86400000, []⟩
    (fun _ => Sdk.AttemptOutcome.thrownErr none "connection reset")
    (Cache.emptyCache _ 1000) ⟨[], none⟩ ⟨"connection reset", none⟩
    rfl rfl (by decide) rfl (by decide) rfl

/-- C7: for every orchestrated request with well-formed inputs, (i) when
date compliance fails the request returns a failure (`success = false`,
code 400) with an empty interaction trace — no cache lookup, no
rate-limiter interaction, no transport call — leaving cache and limiter
untouched; (ii) when compliance passes and the cache holds a fresh entry
for the request key, the cached response is returned with a trace
containing only the cache lookup — no rate-limiter interaction and no
transport call — and the limiter state unchanged. -/
theorem c7_frame {α : Type} (now : Int) (sv ev : Sdk.InputValidation)
    (clientOk : Bool) (outcomes : Nat → Sdk.AttemptOutcome α)
    (cache : Cache.CacheState (Sdk.SdkResponse α)) (rate : RateLimiter.RateLimitData)
    (hv1 : sv.isValid = true) (hv2 : ev.isValid = true) :
    ((DateCompliance.validateDateRange (some sv.value) (some ev.value) now).isValid = false →
      (Sdk.getLeadsForDateRange now sv ev clientOk outcomes cache rate).events = [] ∧
      (Sdk.getLeadsForDateRange now sv ev clientOk outcomes cache rate).cache = cache ∧
      (Sdk.getLeadsForDateRange now sv ev clientOk outcomes cache rate).rate = rate ∧
      (Sdk.getLeadsForDateRange now sv ev clientOk outcomes cache rate).response.success = false ∧
      (Sdk.getLeadsForDateRange now sv ev clientOk outcomes cache rate).response.code = some 400) ∧
    (∀ v : Sdk.SdkResponse α,
      (DateCompliance.validateDateRange (some sv.value) (some ev.value) now).isValid = true →
      (Cache.get now (Cache.generateKey "leads"
        [("startDate", toString sv.value), ("endDate", toString ev.value)]) cache).1 = some v →
      (Sdk.getLeadsForDateRange now sv ev clientOk outcomes cache rate).response = v ∧
      (Sdk.getLeadsForDateRange now sv ev clientOk outcomes cache rate).events =
        [Sdk.OrchEvent.cacheGet] ∧
      (Sdk.getLeadsForDateRange now sv ev clientOk outcomes cache rate).rate = rate) := by
  constructor
  · intro hfail
    refine ⟨?_, ?_, ?_, ?_, ?_⟩ <;>
      simp [Sdk.getLeadsForDateRange, hv1, hv2, hfail]
  · intro v hcomp hhit
    refine ⟨?_, ?_, ?_⟩ <;>
      simp [Sdk.getLeadsForDateRange, hv1, hv2, hcomp, hhit]

/-- C7 witness: `c7_frame` (cache-hit half) at a concrete fresh entry
stored under the request key; the cached response is returned with only
the cache lookup in the trace. -/
theorem c7_frame_witness :
    (Sdk.getLeadsForDateRange (α := Nat) 86400000 ⟨true, 0, []⟩ ⟨true, 86400000, []⟩ true
      (fun _ => Sdk.AttemptOutcome.thrownErr none "connection reset")
      ⟨[(Cache.generateKey "leads"
          [("startDate", toString (0 : Int)), ("endDate", toString (86400000 : Int))],
         ⟨⟨true, none, some 200, [7], none⟩, 86400000, 300000, 0, 86400000⟩)],
        1000, 0, 0, 0⟩ ⟨[], none⟩).response = ⟨true, none, some 200, [7], none⟩ ∧
    (Sdk.getLeadsForDateRange (α := Nat) 86400000 ⟨true, 0, []⟩ ⟨true, 86400000, []⟩ true
      (fun _ => Sdk.AttemptOutcome.thrownErr none "connection reset")
      ⟨[(Cache.generateKey "leads"
          [("startDate", toString (0 : Int)), ("endDate", toString (86400000 : Int))],
         ⟨⟨true, none, some 200, [7], none⟩, 86400000, 300000, 0, 86400000⟩)],
        1000, 0, 0, 0⟩ ⟨[], none⟩).events = [Sdk.OrchEvent.cacheGet] ∧
    (Sdk.getLeadsForDateRange (α := Nat) 86400000 ⟨true, 0, []⟩ ⟨true, 86400000, []⟩ true
      (fun _ => Sdk.AttemptOutcome.thrownErr none "connection reset")
      ⟨[(Cache.generateKey "leads"
          [("startDate", toString (0 : Int)), ("endDate", toString (86400000 : Int))],
         ⟨⟨true, none, some 200, [7], none⟩, 86400000, 300000, 0, 86400000⟩)],
        1000, 0, 0, 0⟩ ⟨[], none⟩).rate = ⟨[], none⟩ :=
  (c7_frame 86400000 ⟨true, 0, []⟩ ⟨true, 86400000, []⟩ true
    (fun _ => Sdk.AttemptOutcome.thrownErr none "connection reset")
    ⟨[(Cache.generateKey "leads"
        [("startDate", toString (0 : Int)), ("endDate", toString (86400000 : Int))],
       ⟨⟨true, none, some 200, [7], none⟩, 86400000, 300000, 0, 86400000⟩)],
      1000, 0, 0, 0⟩ ⟨[], none⟩ rfl rfl).2
    ⟨true, none, some 200, [7], none⟩ (by decide) (by decide)

end OrchestratorClaims
